import Mathlib

/-!
Verification development for the dapi client library (DesignSafe-CI/dapi).

The repository's Python package sources (dapi/jobs.py, dapi/client.py,
dapi/db.py, dapi/exceptions.py) are not present in this source tree; only
documentation (docs/jobs.md, docs/api/exceptions.md), notebooks and build
configuration are.  The definitions below are therefore shallow embeddings
modelled from the natural-language specification (spec.md) and the in-tree
documentation, as marked on each definition.
-/

namespace Dapi

/-- Modelled from the spec: the closed set of terminal remote job statuses.
The implementation module dapi/jobs.py (symbol TERMINAL_STATES) is missing
from the tree; the set is taken from spec section 4.2 and the status table
in docs/jobs.md: FINISHED, FAILED, CANCELLED, STOPPED are terminal. -/
def TERMINAL_STATES : List String :=
  ["FINISHED", "FAILED", "CANCELLED", "STOPPED"]

/-- Modelled from the spec: the recognized in-progress remote statuses, from
spec section 4.2's state machine and the status table in docs/jobs.md. -/
def IN_PROGRESS_STATES : List String :=
  ["PENDING", "PROCESSING_INPUTS", "STAGING_INPUTS", "STAGING_JOB",
   "SUBMITTING_JOB", "QUEUED", "RUNNING", "ARCHIVING"]

/-- Terminal-status test used by the polling loop. -/
def isTerminal (s : String) : Bool := TERMINAL_STATES.contains s

/-- In-progress (recognized, non-terminal) status test. -/
def isInProgress (s : String) : Bool := IN_PROGRESS_STATES.contains s

/-- The closed set of values `monitor` may return: the four terminal remote
statuses plus the sentinel values. -/
def MONITOR_RESULT_SET : List String :=
  ["FINISHED", "FAILED", "CANCELLED", "STOPPED",
   "TIMEOUT", "INTERRUPTED", "MONITOR_ERROR", "UNKNOWN"]

/-- Modelled from the spec: the outcome of one remote status check during
polling — a status string, a network/remote error on that individual check,
or a user interruption. -/
inductive PollResult where
  | ok (status : String)
  | err (msg : String)
  | interrupt
deriving Repr, DecidableEq

/-- Modelled from the spec: the submitted-job handle — an opaque identifier
plus cached last-known status and last message (spec section 3). -/
structure Handle where
  uuid : String
  lastStatus : Option String
  lastMessage : Option String
deriving Repr, DecidableEq

/-- Network actions the monitor loop can perform against the remote
service: fetching the status (one poll per loop iteration) or requesting
cancellation. -/
inductive NetAction where
  | poll (i : Nat)
  | cancel
deriving Repr, DecidableEq

/-- The full observable outcome of a monitoring run: the returned status
string, the updated in-memory handle, the network actions performed, and
the log of failed individual status checks. -/
structure MonitorOutcome where
  result : String
  handle : Handle
  actions : List NetAction
  errorLog : List String
deriving Repr, DecidableEq

/-- Modelled from the spec: the `monitor` polling loop (dapi/jobs.py is
missing from the tree).  Per spec section 4.2 it repeatedly fetches status
at a fixed interval until a terminal state is observed or the timeout
elapses; it returns the final observed terminal status or a sentinel
(TIMEOUT on elapsed timeout, INTERRUPTED on interruption, UNKNOWN on an
unrecognized status string) rather than raising; per spec section 7 a
failed individual status check is logged and polling continues.  `polls`
is the stream of remote check outcomes, `fuel` the number of fixed-interval
checks remaining before the timeout elapses, `i` the index of the next
check, `h` the in-memory handle. -/
def runMonitor (polls : Nat → PollResult) : Nat → Nat → Handle → MonitorOutcome
  | 0, _, h => ⟨"TIMEOUT", h, [], []⟩
  | fuel + 1, i, h =>
    match polls i with
    | .interrupt => ⟨"INTERRUPTED", h, [.poll i], []⟩
    | .err m =>
        let rest := runMonitor polls fuel (i + 1) h
        ⟨rest.result, rest.handle, .poll i :: rest.actions, m :: rest.errorLog⟩
    | .ok s =>
        let h2 : Handle := { h with lastStatus := some s }
        if isTerminal s then ⟨s, h2, [.poll i], []⟩
        else if isInProgress s then
          let rest := runMonitor polls fuel (i + 1) h2
          ⟨rest.result, rest.handle, .poll i :: rest.actions, rest.errorLog⟩
        else ⟨"UNKNOWN", h2, [.poll i], []⟩

/-- The status string `monitor` returns for a given stream of poll
outcomes and a timeout budget of `fuel` fixed-interval checks. -/
def monitor (polls : Nat → PollResult) (fuel : Nat) (h : Handle) : String :=
  (runMonitor polls fuel 0 h).result

/-- Modelled from the spec: a declared file-input slot of an application
descriptor — its declared name, whether its declared type accepts a file
path, and the value it has been filled with (none until filled). -/
structure FileInputSlot where
  name : String
  acceptsFilePath : Bool
  value : Option String
deriving Repr, DecidableEq

/-- Index of the first slot satisfying a predicate. -/
def firstIdx (p : FileInputSlot → Bool) : List FileInputSlot → Option Nat
  | [] => none
  | s :: rest => if p s then some 0 else (firstIdx p rest).map (· + 1)

/-- Fill slot `i` with the script filename, leaving every other slot
unchanged. -/
def setSlot : List FileInputSlot → Nat → String → List FileInputSlot
  | [], _, _ => []
  | s :: rest, 0, script => { s with value := some script } :: rest
  | s :: rest, i + 1, script => s :: setSlot rest i script

/-- Modelled from the spec: the slot `generate_request` chooses for the
caller's script filename (dapi/jobs.py is missing from the tree) — per spec
section 4.1, the slot whose declared name exactly matches is preferred, and
otherwise the first slot whose declared type accepts a file path. -/
def chosenIdx (slots : List FileInputSlot) (script : String) : Option Nat :=
  match firstIdx (fun s => s.name == script) slots with
  | some i => some i
  | none => firstIdx (fun s => s.acceptsFilePath) slots

/-- Modelled from the spec: placing the script filename into the chosen
slot; none when no compatible slot exists. -/
def placeScript (slots : List FileInputSlot) (script : String) :
    Option (List FileInputSlot) :=
  (chosenIdx slots script).map (fun i => setSlot slots i script)

/-- Number of slots currently filled with the given script filename. -/
def countScript (script : String) (slots : List FileInputSlot) : Nat :=
  slots.countP (fun s => s.value == some script)

/-- Modelled from the spec: the error categories of the library, one named
condition per origin (dapi/exceptions.py is missing from the tree; the
categories are spec section 7's list — authentication, file/path
resolution, application discovery, system information, job submission, job
monitoring — plus the distinct validation error that spec section 4.1
requires for malformed override values such as negative minutes). -/
inductive DapiError where
  | authenticationError (msg : String)
  | fileOperationError (msg : String)
  | appDiscoveryError (msg : String)
  | systemInfoError (msg : String)
  | jobSubmissionError (msg : String)
  | jobMonitorError (msg : String)
  | validationError (msg : String)
deriving Repr, DecidableEq

/-- The name of an error's category (its constructor), for branching
without matching message strings. -/
def DapiError.category : DapiError → String
  | .authenticationError _ => "AuthenticationError"
  | .fileOperationError _ => "FileOperationError"
  | .appDiscoveryError _ => "AppDiscoveryError"
  | .systemInfoError _ => "SystemInfoError"
  | .jobSubmissionError _ => "JobSubmissionError"
  | .jobMonitorError _ => "JobMonitorError"
  | .validationError _ => "ValidationError"

/-- Category of the error of a fallible result, none on success. -/
def errCategory {α : Type} : Except DapiError α → Option String
  | .error e => some e.category
  | .ok _ => none

/-- Modelled from the spec: an application descriptor — remote metadata
with the application's identifier, version, execution system, declared
file-input slots, and default resource limits (spec section 3). -/
structure AppDescriptor where
  id : String
  version : String
  execSystemId : String
  nodeCount : Nat
  coresPerNode : Nat
  memoryMB : Nat
  maxMinutes : Nat
  execSystemLogicalQueue : String
  fileInputs : List FileInputSlot
deriving Repr, DecidableEq

/-- Modelled from the spec: the caller's optional resource overrides for
`generate_request` (node count, cores per node, memory, wall-clock minutes,
queue, allocation), each absent unless supplied. -/
structure Overrides where
  node_count : Option Nat
  cores_per_node : Option Nat
  memory_mb : Option Nat
  max_minutes : Option Int
  queue : Option String
  allocation : Option String
deriving Repr, DecidableEq

/-- Modelled from the spec: the structured job request assembled by merging
the application descriptor's defaults with caller overrides (spec
section 3). -/
structure JobRequest where
  name : String
  appId : String
  appVersion : String
  execSystemId : String
  nodeCount : Nat
  coresPerNode : Nat
  memoryMB : Nat
  maxMinutes : Int
  execSystemLogicalQueue : String
  fileInputs : List FileInputSlot
  schedulerOptions : List String
deriving Repr, DecidableEq

/-- The fields the remote submission endpoint requires in every request. -/
def REQUIRED_FIELDS : List String :=
  ["name", "appId", "appVersion", "execSystemId", "nodeCount",
   "coresPerNode", "memoryMB", "maxMinutes", "execSystemLogicalQueue",
   "fileInputs"]

/-- The request serialized as key-value pairs, as sent to the remote
submission endpoint. -/
def JobRequest.toKV (r : JobRequest) : List (String × String) :=
  [("name", r.name), ("appId", r.appId), ("appVersion", r.appVersion),
   ("execSystemId", r.execSystemId),
   ("nodeCount", toString r.nodeCount),
   ("coresPerNode", toString r.coresPerNode),
   ("memoryMB", toString r.memoryMB),
   ("maxMinutes", toString r.maxMinutes),
   ("execSystemLogicalQueue", r.execSystemLogicalQueue),
   ("fileInputs", toString (r.fileInputs.length)),
   ("schedulerOptions", toString (r.schedulerOptions.length))]

/-- Modelled from the spec: `generate_request` (dapi/jobs.py is missing
from the tree).  Per spec section 4.1 it validates override values
(malformed values such as negative minutes surface a distinct named
validation error), places the caller's script filename into a file-input
slot (exact name match preferred, first compatible slot as fallback),
merges caller-supplied resource overrides on top of the application's
declared defaults, appends an allocation scheduler option if supplied, and
fills every remaining required field from the application default.  The
job name carries the caller-visible timestamp, the only time-based
field. -/
def generate_request (app : AppDescriptor) (ov : Overrides)
    (script : String) (timestamp : String) : Except DapiError JobRequest :=
  if ov.max_minutes.getD 0 < 0 then
    .error (.validationError "max_minutes cannot be negative")
  else
    match placeScript app.fileInputs script with
    | none =>
        .error (.validationError "no compatible file input slot for script")
    | some inputs =>
        .ok
          { name := app.id ++ "-" ++ timestamp
            appId := app.id
            appVersion := app.version
            execSystemId := app.execSystemId
            nodeCount := ov.node_count.getD app.nodeCount
            coresPerNode := ov.cores_per_node.getD app.coresPerNode
            memoryMB := ov.memory_mb.getD app.memoryMB
            maxMinutes := ov.max_minutes.getD (app.maxMinutes : Int)
            execSystemLogicalQueue := ov.queue.getD app.execSystemLogicalQueue
            fileInputs := inputs
            schedulerOptions :=
              match ov.allocation with
              | some a => ["-A " ++ a]
              | none => [] }

/-- Modelled from the spec: application lookup by identifier — an unknown
or disabled application id surfaces an application-discovery error (spec
section 4.1; dapi/client.py is missing from the tree).  `apps` is the set
of known, enabled remote applications. -/
def get_details (apps : List AppDescriptor) (appId : String) :
    Except DapiError AppDescriptor :=
  match apps.find? (fun a => a.id == appId) with
  | some a => .ok a
  | none => .error (.appDiscoveryError ("Application not found: " ++ appId))

/-- Modelled from the spec: input-location resolution — an unreachable
location surfaces a file-operation error (spec section 4.1; dapi/files.py
is missing from the tree).  `existingPaths` is the set of reachable
storage locations. -/
def translate_path_to_uri (existingPaths : List String) (path : String) :
    Except DapiError String :=
  if existingPaths.contains path then
    .ok ("tapis://designsafe.storage.default" ++ path)
  else .error (.fileOperationError ("Path does not exist: " ++ path))

/-- Modelled from the spec: job submission — a payload the remote service
rejects surfaces a job-submission error, and an accepted one yields a
handle with the new job's identifier (spec section 4.2; dapi/jobs.py is
missing from the tree).  `accepts` abstracts the remote service's
acceptance decision. -/
def submit_request (accepts : JobRequest → Bool) (r : JobRequest) :
    Except DapiError Handle :=
  if accepts r then .ok ⟨"uuid-" ++ r.name, none, none⟩
  else .error (.jobSubmissionError ("Submission rejected: " ++ r.name))

/-- A database engine instance: the database it serves and a creation
counter value distinguishing separately created instances. -/
structure Engine where
  dbName : String
  instanceId : Nat
deriving Repr, DecidableEq

/-- The three databases the accessor serves. -/
inductive DBKey where
  | ngl
  | vp
  | eq
deriving Repr, DecidableEq

/-- The attribute name of a database key. -/
def dbKeyName : DBKey → String
  | .ngl => "ngl"
  | .vp => "vp"
  | .eq => "eq"

/-- Modelled from the spec: the state of the lazily initializing database
accessor (dapi/db.py, symbol DatabaseAccessor, is missing from the tree;
the notebook in the tree documents that accessing `db.ngl`, `db.vp` or
`db.eq` triggers lazy initialization in DatabaseAccessor._get_db if that
database has not been accessed yet).  One optional engine per database,
plus a count of engines created so far. -/
structure DatabaseAccessor where
  ngl : Option Engine
  vp : Option Engine
  eq : Option Engine
  enginesCreated : Nat
deriving Repr, DecidableEq

/-- The accessor state right after client construction: no engines. -/
def DatabaseAccessor.init : DatabaseAccessor := ⟨none, none, none, 0⟩

/-- The engine currently cached for a database, if any. -/
def DatabaseAccessor.read (st : DatabaseAccessor) : DBKey → Option Engine
  | .ngl => st.ngl
  | .vp => st.vp
  | .eq => st.eq

/-- Cache a newly created engine for a database, bumping the creation
count. -/
def DatabaseAccessor.store (st : DatabaseAccessor) (k : DBKey) (e : Engine) :
    DatabaseAccessor :=
  match k with
  | .ngl => { st with ngl := some e, enginesCreated := st.enginesCreated + 1 }
  | .vp => { st with vp := some e, enginesCreated := st.enginesCreated + 1 }
  | .eq => { st with eq := some e, enginesCreated := st.enginesCreated + 1 }

/-- Modelled from the spec: DatabaseAccessor._get_db — return the cached
engine for the database if one exists, otherwise create the engine now,
cache it, and return it. -/
def DatabaseAccessor.getDb (st : DatabaseAccessor) (k : DBKey) :
    Engine × DatabaseAccessor :=
  match st.read k with
  | some e => (e, st)
  | none =>
      let e : Engine := ⟨dbKeyName k, st.enginesCreated⟩
      (e, st.store k e)

/-- A concrete application descriptor used as a fixture: one file-input
slot whose declared type accepts a file path. -/
def appEx : AppDescriptor :=
  ⟨"matlab-r2023a", "1.0", "frontera", 1, 56, 192000, 60, "normal",
   [⟨"Input Script", true, none⟩]⟩

/-- A concrete override set used as a fixture: node count and wall-clock
minutes overridden, an allocation supplied. -/
def ovEx : Overrides :=
  ⟨some 2, none, none, some 120, none, some "TACC-123"⟩

/-- The request `generate_request` assembles from `appEx` and `ovEx` with
script `run.m` and timestamp `t1`. -/
def rEx : JobRequest :=
  ⟨"matlab-r2023a-t1", "matlab-r2023a", "1.0", "frontera", 2, 56, 192000,
   120, "normal", [⟨"Input Script", true, some "run.m"⟩], ["-A TACC-123"]⟩

/-- The same request assembled with timestamp `t2`. -/
def rEx2 : JobRequest :=
  ⟨"matlab-r2023a-t2", "matlab-r2023a", "1.0", "frontera", 2, 56, 192000,
   120, "normal", [⟨"Input Script", true, some "run.m"⟩], ["-A TACC-123"]⟩

theorem isTerminal_mem_result_set {s : String} (h : isTerminal s = true) :
    s ∈ MONITOR_RESULT_SET := by
  have hm : s ∈ TERMINAL_STATES := by
    simpa [isTerminal, List.contains, List.elem_iff] using h
  simp only [TERMINAL_STATES, List.mem_cons, List.not_mem_nil, or_false] at hm
  rcases hm with h1 | h1 | h1 | h1 <;> subst h1 <;> simp [MONITOR_RESULT_SET]

theorem runMonitor_result_mem (polls : Nat → PollResult) :
    ∀ (fuel i : Nat) (h : Handle),
      (runMonitor polls fuel i h).result ∈ MONITOR_RESULT_SET := by
  intro fuel
  induction fuel with
  | zero => intro i h; simp [runMonitor, MONITOR_RESULT_SET]
  | succ n ih =>
    intro i h
    simp only [runMonitor]
    cases hp : polls i with
    | interrupt => simp [MONITOR_RESULT_SET]
    | err m => simpa using ih (i + 1) h
    | ok s =>
      by_cases ht : isTerminal s = true
      · simpa [ht] using isTerminal_mem_result_set ht
      · by_cases hip : isInProgress s = true
        · simp only [ht, hip, if_true, if_false, Bool.false_eq_true]
          simpa using ih (i + 1) { h with lastStatus := some s }
        · simp [ht, hip, MONITOR_RESULT_SET]

theorem isTerminal_eq_false_of_isInProgress {s : String}
    (h : isInProgress s = true) : isTerminal s = false := by
  have hm : s ∈ IN_PROGRESS_STATES := by
    simpa [isInProgress, List.contains, List.elem_iff] using h
  simp only [IN_PROGRESS_STATES, List.mem_cons, List.not_mem_nil, or_false] at hm
  rcases hm with h1 | h1 | h1 | h1 | h1 | h1 | h1 | h1 <;> subst h1 <;> decide

theorem runMonitor_timeout_aux (polls : Nat → PollResult) :
    ∀ (fuel i : Nat) (h : Handle),
      (∀ j, i ≤ j → j < i + fuel →
        polls j ≠ PollResult.interrupt ∧
        (∀ s, polls j = PollResult.ok s → isInProgress s = true)) →
      (runMonitor polls fuel i h).result = "TIMEOUT" := by
  intro fuel
  induction fuel with
  | zero => intro i h _; simp [runMonitor]
  | succ n ih =>
    intro i h hp
    have hi : i ≤ i := le_refl i
    have hlt : i < i + (n + 1) := by omega
    have hcur := hp i hi hlt
    simp only [runMonitor]
    cases hc : polls i with
    | interrupt => exact absurd hc hcur.1
    | err m =>
      have := ih (i + 1) h (by intro j hj1 hj2; exact hp j (by omega) (by omega))
      simpa using this
    | ok s =>
      have hip : isInProgress s = true := hcur.2 s hc
      have ht : isTerminal s = false := isTerminal_eq_false_of_isInProgress hip
      simp only [ht, hip, Bool.false_eq_true, if_false, if_true]
      have := ih (i + 1) { h with lastStatus := some s }
        (by intro j hj1 hj2; exact hp j (by omega) (by omega))
      simpa using this

theorem cancel_not_mem_runMonitor_actions (polls : Nat → PollResult) :
    ∀ (fuel i : Nat) (h : Handle),
      NetAction.cancel ∉ (runMonitor polls fuel i h).actions := by
  intro fuel
  induction fuel with
  | zero => intro i h; simp [runMonitor]
  | succ n ih =>
    intro i h
    simp only [runMonitor]
    cases polls i with
    | interrupt => simp
    | err m => simpa using ih (i + 1) h
    | ok s =>
      by_cases ht : isTerminal s = true
      · simp [ht]
      · by_cases hip : isInProgress s = true
        · simp only [ht, hip, if_true, if_false, Bool.false_eq_true]
          simpa using ih (i + 1) { h with lastStatus := some s }
        · simp [ht, hip]

theorem runMonitor_uuid_preserved (polls : Nat → PollResult) :
    ∀ (fuel i : Nat) (h : Handle),
      (runMonitor polls fuel i h).handle.uuid = h.uuid := by
  intro fuel
  induction fuel with
  | zero => intro i h; simp [runMonitor]
  | succ n ih =>
    intro i h
    simp only [runMonitor]
    cases polls i with
    | interrupt => simp
    | err m => simpa using ih (i + 1) h
    | ok s =>
      by_cases ht : isTerminal s = true
      · simp [ht]
      · by_cases hip : isInProgress s = true
        · simp only [ht, hip, if_true, if_false, Bool.false_eq_true]
          simpa using ih (i + 1) { h with lastStatus := some s }
        · simp [ht, hip]

/-- Claim C3: for every sequence of remote statuses observed during polling,
`monitor` returns a member of the closed set {FINISHED, FAILED, CANCELLED,
STOPPED, TIMEOUT, INTERRUPTED, MONITOR_ERROR, UNKNOWN}; it never returns a
string outside that set, and timeout or interruption produce a sentinel
return value rather than an exception. -/
theorem monitor_result_in_closed_set (polls : Nat → PollResult) (fuel : Nat)
    (h : Handle) : monitor polls fuel h ∈ MONITOR_RESULT_SET :=
  runMonitor_result_mem polls fuel 0 h

/-- Claim C4: for every job whose remote completion time exceeds the timeout
passed to `monitor` — every status check that happens before the timeout
elapses observes an in-progress status (or fails), never a terminal one —
`monitor` returns the TIMEOUT sentinel, and not any terminal status the job
may eventually reach. -/
theorem monitor_timeout_before_completion (polls : Nat → PollResult)
    (fuel : Nat) (h : Handle)
    (hp : ∀ j, j < fuel →
      polls j ≠ PollResult.interrupt ∧
      (∀ s, polls j = PollResult.ok s → isInProgress s = true)) :
    monitor polls fuel h = "TIMEOUT" ∧
    ∀ t, isTerminal t = true → monitor polls fuel h ≠ t := by
  have hm : monitor polls fuel h = "TIMEOUT" := by
    exact runMonitor_timeout_aux polls fuel 0 h
      (by intro j hj1 hj2; exact hp j (by omega))
  refine ⟨hm, ?_⟩
  intro t ht heq
  rw [hm] at heq
  subst heq
  simp [isTerminal, TERMINAL_STATES] at ht

/-- Witness for C4: with every check observing RUNNING and a budget of three
checks, `monitor` returns TIMEOUT. -/
theorem monitor_timeout_before_completion_witness :
    monitor (fun _ => PollResult.ok "RUNNING") 3 ⟨"job-1", none, none⟩
      = "TIMEOUT" :=
  (monitor_timeout_before_completion (fun _ => PollResult.ok "RUNNING") 3
    ⟨"job-1", none, none⟩
    (by
      intro j hj
      refine ⟨by simp, ?_⟩
      intro s hs
      have : s = "RUNNING" := by
        simpa using (PollResult.ok.injEq _ _).mp hs.symm
      subst this
      decide)).1

/-- Claim C5: the client classifies exactly FINISHED, FAILED, CANCELLED and
STOPPED as terminal, every recognized in-progress status as non-terminal,
and the polling loop stops (returning the status) on observing a terminal
status while it continues to the next check on every in-progress status. -/
theorem terminal_states_classification (polls : Nat → PollResult)
    (fuel i : Nat) (h : Handle) (s : String) :
    (isTerminal s = true ↔
      (s = "FINISHED" ∨ s = "FAILED" ∨ s = "CANCELLED" ∨ s = "STOPPED"))
    ∧ (∀ t, t ∈ IN_PROGRESS_STATES → isTerminal t = false)
    ∧ (polls i = PollResult.ok s → isTerminal s = true →
        runMonitor polls (fuel + 1) i h
          = ⟨s, { h with lastStatus := some s }, [NetAction.poll i], []⟩)
    ∧ (polls i = PollResult.ok s → isInProgress s = true →
        (runMonitor polls (fuel + 1) i h).result
          = (runMonitor polls fuel (i + 1)
              { h with lastStatus := some s }).result) := by
  refine ⟨?_, ?_, ?_, ?_⟩
  · constructor
    · intro ht
      have hm : s ∈ TERMINAL_STATES := by
        simpa [isTerminal, List.contains, List.elem_iff] using ht
      simpa [TERMINAL_STATES] using hm
    · intro hd
      rcases hd with h1 | h1 | h1 | h1 <;> subst h1 <;> decide
  · intro t htm
    simp only [IN_PROGRESS_STATES, List.mem_cons, List.not_mem_nil, or_false]
      at htm
    rcases htm with h1 | h1 | h1 | h1 | h1 | h1 | h1 | h1 <;> subst h1 <;>
      decide
  · intro hps ht
    simp [runMonitor, hps, ht]
  · intro hps hip
    have ht : isTerminal s = false := isTerminal_eq_false_of_isInProgress hip
    simp [runMonitor, hps, ht, hip]

/-- Witness for C5: observing FINISHED on the first check stops the loop and
returns FINISHED with the handle's cached status updated. -/
theorem terminal_states_classification_witness :
    runMonitor (fun _ => PollResult.ok "FINISHED") 4 0 ⟨"job-2", none, none⟩
      = ⟨"FINISHED", ⟨"job-2", some "FINISHED", none⟩,
         [NetAction.poll 0], []⟩ :=
  (terminal_states_classification (fun _ => PollResult.ok "FINISHED") 3 0
    ⟨"job-2", none, none⟩ "FINISHED").2.2.1 rfl (by decide)

/-- Claim C7: a failure of an individual remote status check never
terminates the polling loop: the failed check is logged (appended to the
error log), the loop performs exactly that one network action for the
iteration, and polling continues with the next scheduled check — the
overall result is whatever the remaining iterations produce, with no retry
outside the loop's own next iteration. -/
theorem failed_check_logged_and_continues (polls : Nat → PollResult)
    (fuel i : Nat) (h : Handle) (m : String)
    (he : polls i = PollResult.err m) :
    (runMonitor polls (fuel + 1) i h).result
      = (runMonitor polls fuel (i + 1) h).result
    ∧ (runMonitor polls (fuel + 1) i h).errorLog
      = m :: (runMonitor polls fuel (i + 1) h).errorLog
    ∧ (runMonitor polls (fuel + 1) i h).actions
      = NetAction.poll i :: (runMonitor polls fuel (i + 1) h).actions := by
  simp [runMonitor, he]

/-- Witness for C7: a connection failure on the first check is logged and
the loop goes on to observe FINISHED on the second check. -/
theorem failed_check_logged_and_continues_witness :
    (runMonitor
        (fun n => if n == 0 then PollResult.err "connection reset"
                  else PollResult.ok "FINISHED") 2 0
        ⟨"job-3", none, none⟩).result
      = (runMonitor
          (fun n => if n == 0 then PollResult.err "connection reset"
                    else PollResult.ok "FINISHED") 1 1
          ⟨"job-3", none, none⟩).result :=
  (failed_check_logged_and_continues
    (fun n => if n == 0 then PollResult.err "connection reset"
              else PollResult.ok "FINISHED") 1 0
    ⟨"job-3", none, none⟩ "connection reset" rfl).1

/-- Claim C8: when `monitor` exits because its timeout elapsed, the
underlying remote job is not cancelled — the monitor loop never issues a
cancel action — and no local state beyond the in-memory handle is touched:
the handle keeps identifying the same job (same uuid), so the job may still
be running afterwards. -/
theorem timeout_does_not_cancel (polls : Nat → PollResult) (fuel : Nat)
    (h : Handle) (ht : monitor polls fuel h = "TIMEOUT") :
    NetAction.cancel ∉ (runMonitor polls fuel 0 h).actions
    ∧ (runMonitor polls fuel 0 h).handle.uuid = h.uuid :=
  ⟨cancel_not_mem_runMonitor_actions polls fuel 0 h,
   runMonitor_uuid_preserved polls fuel 0 h⟩

/-- Witness for C8: a run that times out while the job keeps reporting
RUNNING issues no cancel action and leaves the handle's uuid unchanged. -/
theorem timeout_does_not_cancel_witness :
    NetAction.cancel ∉
      (runMonitor (fun _ => PollResult.ok "RUNNING") 2 0
        ⟨"job-4", none, none⟩).actions
    ∧ (runMonitor (fun _ => PollResult.ok "RUNNING") 2 0
        ⟨"job-4", none, none⟩).handle.uuid = "job-4" :=
  timeout_does_not_cancel (fun _ => PollResult.ok "RUNNING") 2
    ⟨"job-4", none, none⟩ (by decide)

theorem firstIdx_lt_length {p : FileInputSlot → Bool} :
    ∀ {slots : List FileInputSlot} {i : Nat},
      firstIdx p slots = some i → i < slots.length := by
  intro slots
  induction slots with
  | nil => intro i h; simp [firstIdx] at h
  | cons s rest ih =>
    intro i h
    by_cases hp : p s
    · simp only [firstIdx, hp, if_true, Option.some.injEq] at h
      subst h
      simp
    · simp only [firstIdx, hp, Bool.false_eq_true, if_false,
        Option.map_eq_some'] at h
      rcases h with ⟨j, hj, rfl⟩
      have := ih hj
      simp only [List.length_cons]
      omega

theorem chosenIdx_lt_length {slots : List FileInputSlot} {script : String}
    {i : Nat} (h : chosenIdx slots script = some i) : i < slots.length := by
  rw [chosenIdx] at h
  rcases hn : firstIdx (fun s => s.name == script) slots with _ | j
  · rw [hn] at h
    exact firstIdx_lt_length h
  · rw [hn] at h
    simp only [Option.some.injEq] at h
    subst h
    exact firstIdx_lt_length hn

theorem countScript_eq_zero {script : String} :
    ∀ {slots : List FileInputSlot},
      (∀ s ∈ slots, s.value = none) → countScript script slots = 0 := by
  intro slots
  induction slots with
  | nil => intro _; simp [countScript]
  | cons s rest ih =>
    intro h0
    have hs : s.value = none := h0 s (by simp)
    have hrest := ih (fun t ht => h0 t (by simp [ht]))
    simp only [countScript, List.countP_cons, hs] at *
    simp [hrest]

theorem countScript_setSlot (script : String) :
    ∀ (slots : List FileInputSlot) (i : Nat),
      (∀ s ∈ slots, s.value = none) → i < slots.length →
      countScript script (setSlot slots i script) = 1 := by
  intro slots
  induction slots with
  | nil => intro i _ hi; simp at hi
  | cons s rest ih =>
    intro i h0 hi
    cases i with
    | zero =>
      have hrest : countScript script rest = 0 :=
        countScript_eq_zero (fun t ht => h0 t (by simp [ht]))
      simp only [setSlot, countScript, List.countP_cons] at *
      simp [hrest]
    | succ n =>
      have hs : s.value = none := h0 s (by simp)
      have := ih n (fun t ht => h0 t (by simp [ht])) (by simpa using hi)
      simp only [setSlot, countScript, List.countP_cons, hs] at *
      simpa using this

/-- Claim C1: for every application descriptor's list of (unfilled)
file-input slots and every caller-supplied script filename, request
generation that succeeds places the script filename into exactly one
slot — never duplicating it across slots — and the slot chosen is the one
whose declared name exactly matches when such a slot exists, and otherwise
the first slot whose declared type accepts a file path. -/
theorem script_placed_in_exactly_one_slot
    (slots slots' : List FileInputSlot) (script : String)
    (h0 : ∀ s ∈ slots, s.value = none)
    (hp : placeScript slots script = some slots') :
    countScript script slots' = 1
    ∧ (∀ i, firstIdx (fun s => s.name == script) slots = some i →
        slots' = setSlot slots i script)
    ∧ (firstIdx (fun s => s.name == script) slots = none →
        ∀ i, firstIdx (fun s => s.acceptsFilePath) slots = some i →
          slots' = setSlot slots i script) := by
  rcases hc : chosenIdx slots script with _ | i
  · rw [placeScript, hc] at hp
    simp at hp
  · rw [placeScript, hc] at hp
    simp only [Option.map_some', Option.some.injEq] at hp
    subst hp
    refine ⟨countScript_setSlot script slots i h0 (chosenIdx_lt_length hc),
      ?_, ?_⟩
    · intro j hj
      rw [chosenIdx, hj] at hc
      simp only [Option.some.injEq] at hc
      subst hc
      rfl
    · intro hn j hj
      rw [chosenIdx, hn, hj] at hc
      simp only [Option.some.injEq] at hc
      subst hc
      rfl

/-- Witness for C1: with one name-mismatched slot that accepts a file path
followed by another, the script lands in the first compatible slot and in
exactly one slot. -/
theorem script_placed_in_exactly_one_slot_witness :
    countScript "run.m"
      [⟨"Input Script", true, some "run.m"⟩, ⟨"Data Dir", true, none⟩] = 1 :=
  (script_placed_in_exactly_one_slot
    [⟨"Input Script", true, none⟩, ⟨"Data Dir", true, none⟩]
    [⟨"Input Script", true, some "run.m"⟩, ⟨"Data Dir", true, none⟩]
    "run.m" (by intro s hs; fin_cases hs <;> rfl) (by decide)).1

/-- Claim C2: for every application descriptor and caller override set,
each successfully generated request carries the caller's value for every
overridden resource field (overrides always win over the application's
declared defaults), the allocation scheduler option is appended when
supplied, every field the remote submission endpoint requires is present
in the serialized request, and every non-overridden field is filled from
the application default. -/
theorem overrides_take_precedence (app : AppDescriptor) (ov : Overrides)
    (script timestamp : String) (r : JobRequest)
    (hr : generate_request app ov script timestamp = Except.ok r) :
    (∀ v, ov.node_count = some v → r.nodeCount = v)
    ∧ (∀ v, ov.cores_per_node = some v → r.coresPerNode = v)
    ∧ (∀ v, ov.memory_mb = some v → r.memoryMB = v)
    ∧ (∀ v, ov.max_minutes = some v → r.maxMinutes = v)
    ∧ (∀ v, ov.queue = some v → r.execSystemLogicalQueue = v)
    ∧ (∀ a, ov.allocation = some a → ("-A " ++ a) ∈ r.schedulerOptions)
    ∧ (ov.node_count = none → r.nodeCount = app.nodeCount)
    ∧ (ov.cores_per_node = none → r.coresPerNode = app.coresPerNode)
    ∧ (ov.memory_mb = none → r.memoryMB = app.memoryMB)
    ∧ (ov.max_minutes = none → r.maxMinutes = (app.maxMinutes : Int))
    ∧ (ov.queue = none → r.execSystemLogicalQueue = app.execSystemLogicalQueue)
    ∧ (∀ k, k ∈ REQUIRED_FIELDS → k ∈ r.toKV.map Prod.fst) := by
  rw [generate_request] at hr
  by_cases hneg : ov.max_minutes.getD 0 < 0
  · simp [hneg] at hr
  · simp only [hneg, if_false] at hr
    rcases hps : placeScript app.fileInputs script with _ | inputs
    · rw [hps] at hr
      simp at hr
    · rw [hps] at hr
      simp only [Except.ok.injEq] at hr
      subst hr
      refine ⟨?_, ?_, ?_, ?_, ?_, ?_, ?_, ?_, ?_, ?_, ?_, ?_⟩
      · intro v hv; simp [hv]
      · intro v hv; simp [hv]
      · intro v hv; simp [hv]
      · intro v hv; simp [hv]
      · intro v hv; simp [hv]
      · intro a ha; simp [ha]
      · intro hv; simp [hv]
      · intro hv; simp [hv]
      · intro hv; simp [hv]
      · intro hv; simp [hv]
      · intro hv; simp [hv]
      · intro k hk
        simp only [REQUIRED_FIELDS, List.mem_cons, List.not_mem_nil,
          or_false] at hk
        rcases hk with rfl | rfl | rfl | rfl | rfl | rfl | rfl | rfl | rfl
          | rfl <;> simp [JobRequest.toKV]

/-- Witness for C2: on the fixture application and overrides, the
generated request carries the overridden node count and the allocation
scheduler option. -/
theorem overrides_take_precedence_witness :
    rEx.nodeCount = 2 ∧ ("-A " ++ "TACC-123") ∈ rEx.schedulerOptions := by
  have h := overrides_take_precedence appEx ovEx "run.m" "t1" rEx rfl
  exact ⟨h.1 2 rfl, h.2.2.2.2.2.1 "TACC-123" rfl⟩

/-- Claim C9: for a fixed application descriptor, override set and script
filename, two calls to `generate_request` that differ only in the
timestamp produce identical request objects except in the time-based
job-name field. -/
theorem request_generation_deterministic (app : AppDescriptor)
    (ov : Overrides) (script t1 t2 : String) (r1 r2 : JobRequest)
    (h1 : generate_request app ov script t1 = Except.ok r1)
    (h2 : generate_request app ov script t2 = Except.ok r2) :
    { r1 with name := "" } = { r2 with name := "" } := by
  rw [generate_request] at h1 h2
  by_cases hneg : ov.max_minutes.getD 0 < 0
  · simp [hneg] at h1
  · simp only [hneg, if_false] at h1 h2
    rcases hps : placeScript app.fileInputs script with _ | inputs
    · rw [hps] at h1
      simp at h1
    · rw [hps] at h1 h2
      simp only [Except.ok.injEq] at h1 h2
      subst h1
      subst h2
      rfl

/-- Witness for C9: the fixture requests generated at timestamps t1 and t2
agree on every field once the job name is erased. -/
theorem request_generation_deterministic_witness :
    { rEx with name := "" } = { rEx2 with name := "" } :=
  request_generation_deterministic appEx ovEx "run.m" "t1" "t2" rEx rEx2
    rfl rfl

/-- Claim C6: each failure category surfaces its own distinct named error:
an unknown application id an application-discovery error, an unreachable
input location a file-operation error, a rejected submission a
job-submission error, and a malformed override value (negative minutes)
its own named validation error; the category names are pairwise distinct,
so callers can branch on the error type without matching message
strings. -/
theorem distinct_error_categories :
    (∀ (apps : List AppDescriptor) (appId : String),
      (∀ a ∈ apps, a.id ≠ appId) →
      errCategory (get_details apps appId) = some "AppDiscoveryError")
    ∧ (∀ (paths : List String) (p : String), p ∉ paths →
      errCategory (translate_path_to_uri paths p)
        = some "FileOperationError")
    ∧ (∀ (accepts : JobRequest → Bool) (r : JobRequest), accepts r = false →
      errCategory (submit_request accepts r) = some "JobSubmissionError")
    ∧ (∀ (app : AppDescriptor) (ov : Overrides) (script t : String)
        (m : Int), ov.max_minutes = some m → m < 0 →
      errCategory (generate_request app ov script t)
        = some "ValidationError")
    ∧ List.Nodup ["AuthenticationError", "FileOperationError",
        "AppDiscoveryError", "SystemInfoError", "JobSubmissionError",
        "JobMonitorError", "ValidationError"] := by
  refine ⟨?_, ?_, ?_, ?_, by decide⟩
  · intro apps appId hunknown
    have hfind : apps.find? (fun a => a.id == appId) = none := by
      rw [List.find?_eq_none]
      intro a ha
      simpa using hunknown a ha
    simp [get_details, hfind, errCategory, DapiError.category]
  · intro paths p hp
    simp [translate_path_to_uri, hp, errCategory, DapiError.category]
  · intro accepts r hacc
    simp [submit_request, hacc, errCategory, DapiError.category]
  · intro app ov script t m hm hneg
    have : ov.max_minutes.getD 0 < 0 := by simp [hm, hneg]
    simp [generate_request, this, errCategory, DapiError.category]

/-- Witness for C6: concrete instances of all four failure categories. -/
theorem distinct_error_categories_witness :
    errCategory (get_details [] "no-such-app") = some "AppDiscoveryError"
    ∧ errCategory (translate_path_to_uri [] "/MyData/in")
        = some "FileOperationError"
    ∧ errCategory (submit_request (fun _ => false) rEx)
        = some "JobSubmissionError"
    ∧ errCategory
        (generate_request appEx ⟨none, none, none, some (-5), none, none⟩
          "run.m" "t1") = some "ValidationError" :=
  ⟨distinct_error_categories.1 [] "no-such-app" (by simp),
   distinct_error_categories.2.1 [] "/MyData/in" (by simp),
   distinct_error_categories.2.2.1 (fun _ => false) rEx rfl,
   distinct_error_categories.2.2.2.1 appEx
     ⟨none, none, none, some (-5), none, none⟩ "run.m" "t1" (-5) rfl
     (by decide)⟩

/-- Claim C10: constructing the client creates no database engines; the
engine for a given database (ngl, vp, eq) is created exactly once, on the
first attribute access to that database, and every subsequent access to
the same attribute returns the already-created engine without
re-initializing it: accessing the attribute again is idempotent on both
the returned engine and the accessor state. -/
theorem database_engine_created_lazily_once :
    DatabaseAccessor.init.enginesCreated = 0
    ∧ (∀ k, DatabaseAccessor.init.read k = none)
    ∧ (∀ k,
        (DatabaseAccessor.init.getDb k).2.read k
          = some (DatabaseAccessor.init.getDb k).1
        ∧ (DatabaseAccessor.init.getDb k).2.enginesCreated = 1)
    ∧ (∀ (st : DatabaseAccessor) (k : DBKey),
        (st.getDb k).2.getDb k = st.getDb k) := by
  refine ⟨rfl, ?_, ?_, ?_⟩
  · intro k
    cases k <;> rfl
  · intro k
    cases k <;> exact ⟨rfl, rfl⟩
  · intro st k
    cases k
    · rcases h : st.ngl with _ | e <;>
        simp [DatabaseAccessor.getDb, DatabaseAccessor.read,
          DatabaseAccessor.store, h]
    · rcases h : st.vp with _ | e <;>
        simp [DatabaseAccessor.getDb, DatabaseAccessor.read,
          DatabaseAccessor.store, h]
    · rcases h : st.eq with _ | e <;>
        simp [DatabaseAccessor.getDb, DatabaseAccessor.read,
          DatabaseAccessor.store, h]

end Dapi
